import Mathlib

/-!
Shallow embedding of the LTP test-suite plugin
(microsoft/testsuites/ltp/ltp.py and ltpsuite.py) and proofs about it.

Python exceptions are modelled as explicit error values; remote side
effects are modelled as an explicit trace of operations.
-/

namespace Lisa

/-- The subset of lisa.messages.TestStatus used by this plugin. -/
inductive TestStatus
  | QUEUED
  | PASSED
  | FAILED
  | SKIPPED
deriving DecidableEq, Repr

/-- A Python runtime value: the exit_value field of LtpResult is annotated
int but _parse_results assigns the stripped match string, so the dynamic
value can be either. -/
inductive PyVal
  | int (n : Int)
  | str (s : String)
deriving DecidableEq, Repr

/-- True iff the value is an int. -/
def PyVal.isInt : PyVal → Bool
  | .int _ => true
  | .str _ => false

/-- The LtpResult dataclass (ltp.py lines 34-41), with its declared
defaults. The exit_value default is the int 0 from the annotation
`exit_value: int = 0`. -/
structure LtpResult where
  version : String := ""
  architecture : String := ""
  name : String := ""
  status : TestStatus := TestStatus.QUEUED
  exit_value : PyVal := PyVal.int 0
deriving DecidableEq, Repr

/-- Errors raised while parsing: LisaException carries its message;
indexError models the bare IndexError from `matched[0][0]` on an empty
match list. -/
inductive LtpError
  | lisaException (msg : String)
  | indexError
deriving DecidableEq, Repr

/-- True iff the error is a LisaException (the class the repository uses
for its own raised errors, e.g. the unknown-status raise). -/
def LtpError.isLisaException : LtpError → Bool
  | .lisaException _ => true
  | .indexError => false

/-- Constant LTP_TESTS_GIT_TAG (ltp.py line 54). -/
def LTP_TESTS_GIT_TAG : String := "20190930"

/-- Constant LTP_RESULT_PATH (ltp.py line 57). -/
def LTP_RESULT_PATH : String := "/opt/ltp/ltp-results.log"

/-- Constant LTP_OUTPUT_PATH (ltp.py line 58). -/
def LTP_OUTPUT_PATH : String := "/opt/ltp/ltp-output.log"

/-- Constant LTP_SKIP_FILE (ltp.py line 59). -/
def LTP_SKIP_FILE : String := "/opt/ltp/skipfile"

/-- The three status codes accepted by _RESULT_TESTCASE_REGEX
(ltp.py line 48): the alternation (PASS|CONF|FAIL). -/
def isStatusCode (s : String) : Bool :=
  s = "PASS" || s = "CONF" || s = "FAIL"

/-- Split a character list at every character satisfying p; the
separators are consumed and empty pieces are kept. -/
def splitChars (p : Char → Bool) : List Char → List (List Char)
  | [] => [[]]
  | c :: cs =>
    match splitChars p cs with
    | [] => if p c then [[], []] else [[c]]
    | w :: ws => if p c then [] :: w :: ws else (c :: w) :: ws

/-- Python str.strip: drop whitespace from both ends. -/
def trimChars (l : List Char) : List Char :=
  ((l.dropWhile Char.isWhitespace).reverse.dropWhile Char.isWhitespace).reverse

/-- Python str.strip on a String. -/
def pyStrip (s : String) : String :=
  String.mk (trimChars s.data)

/-- The lines of a text, split at newline characters. -/
def toLines (s : String) : List String :=
  (splitChars (fun c => c = '\n') s.data).map String.mk

/-- Whitespace-separated fields of a line, empty runs discarded
(Python str.split with no argument). -/
def lineFields (line : String) : List String :=
  ((splitChars Char.isWhitespace line.data).filter (fun w => w ≠ [])).map String.mk

/-- Drop the marker from the front of the list, or fail. -/
def dropMarker : List Char → List Char → Option (List Char)
  | [], rest => some rest
  | _ :: _, [] => none
  | m :: ms, x :: xs => if x = m then dropMarker ms xs else none

/-- Find the first occurrence of the marker and return what follows it. -/
def findMarker (marker : List Char) : List Char → Option (List Char)
  | [] =>
    match marker with
    | [] => some []
    | _ :: _ => none
  | x :: xs =>
    match dropMarker marker (x :: xs) with
    | some rest => some rest
    | none => findMarker marker xs

/-- Modelled from the spec: the architecture pattern of
find_patterns_in_lines (lisa.util, not under src/) applied to one line,
for _RESULT_LTP_ARCH_REGEX (ltp.py line 51): a line of the form
`Machine Architecture: <value>` captures the value text after the marker. -/
def matchArchLine (line : String) : Option String :=
  match findMarker "Machine Architecture: ".data line.data with
  | some rest => some (String.mk rest)
  | none => none

/-- Modelled from the spec: the test-result pattern of
find_patterns_in_lines (lisa.util, not under src/) applied to one line,
for _RESULT_TESTCASE_REGEX (ltp.py line 48): a line of the form
`<name>  <STATUS>  <exitcode>` with STATUS in the alternation
(PASS|CONF|FAIL) and a digit exit code yields the (name, status, exit)
capture triple; any other line yields no match. -/
def matchTestcaseLine (line : String) : Option (String × String × String) :=
  match lineFields line with
  | [name, status, code] =>
    if isStatusCode status && code.data.all Char.isDigit && code ≠ "" then
      some (name, status, code)
    else
      none
  | _ => none

/-- Modelled from the spec: find_patterns_in_lines (lisa.util, not under
src/) scans the text line by line and returns, per pattern, the list of
capture groups of every match in textual order. -/
def find_patterns_in_lines (text : String) :
    List String × List (String × String × String) :=
  let lines := toLines text
  (lines.filterMap matchArchLine, lines.filterMap matchTestcaseLine)

/-- _parse_status_to_test_status (ltp.py lines 317-325): maps the three
accepted codes, raises LisaException naming the code otherwise. -/
def parse_status_to_test_status (status : String) :
    Except LtpError TestStatus :=
  if status = "PASS" then .ok TestStatus.PASSED
  else if status = "FAIL" then .ok TestStatus.FAILED
  else if status = "CONF" then .ok TestStatus.SKIPPED
  else .error (.lisaException ("Unknown status: " ++ status))

/-- The record-building loop of _parse_results (ltp.py lines 304-313):
one LtpResult per testcase match, in match order, each field stripped;
the first unknown status raises. -/
def build_results (architecture : String)
    (ms : List (String × String × String)) :
    Except LtpError (List LtpResult) :=
  match ms with
  | [] => .ok []
  | m :: rest =>
    match parse_status_to_test_status (pyStrip m.2.1) with
    | .error e => .error e
    | .ok st =>
      match build_results architecture rest with
      | .error e => .error e
      | .ok rs =>
        .ok ({ version := LTP_TESTS_GIT_TAG
               architecture := architecture
               name := pyStrip m.1
               status := st
               exit_value := PyVal.str (pyStrip m.2.2) } :: rs)

/-- _parse_results (ltp.py lines 288-315) applied to the text of the
result file: `matched[0][0]` on an empty architecture match list raises
IndexError; otherwise the first architecture capture is stripped and one
record is built per testcase match. -/
def parse_results (result_file : String) : Except LtpError (List LtpResult) :=
  let matched := find_patterns_in_lines result_file
  match matched.1 with
  | [] => .error LtpError.indexError
  | arch0 :: _ => build_results (pyStrip arch0) matched.2

/-- A remote side-effecting call issued by run_test: file removal, file
write, or process execution. -/
inductive RemoteOp
  | removeFile (path : String)
  | writeFile (content : String) (path : String)
  | runProcess (parameters : String)
deriving DecidableEq, Repr

/-- True iff the operation is a file write. -/
def RemoteOp.isWrite : RemoteOp → Bool
  | .writeFile _ _ => true
  | _ => false

/-- Errors raised by run_test before any remote call. -/
inductive RunError
  | invalidArgument (msg : String)
deriving DecidableEq, Repr

/-- The invocation-argument construction of run_test
(ltp.py lines 101-109): logging parameters, then the comma-joined test
list, then — when drive_name is truthy — a wholesale replacement of the
string built so far by the device-selection flag. -/
def invocation_base (ltp_tests : List String) (drive_name : Option String) :
    String :=
  let parameters := "-p -q -l " ++ LTP_RESULT_PATH ++ " -o " ++
    LTP_OUTPUT_PATH ++ " "
  let parameters := parameters ++ "-f " ++ String.intercalate "," ltp_tests ++ " "
  match drive_name with
  | some d => if d = "" then parameters else "-z " ++ d ++ " "
  | none => parameters

/-- run_test (ltp.py lines 73-126) up to and including the process
execution, as a trace of remote calls plus either the InvalidArgument
error or the parameter string the process was run with. The path_exists
argument stands for the remote filesystem probe ls.path_exists. -/
def run_test (ltp_tests : List String) (skip_tests : List String)
    (drive_name : Option String) (path_exists : String → Bool) :
    List RemoteOp × Except RunError String :=
  if ltp_tests = [] then
    ([], .error (.invalidArgument "ltp_tests cannot be empty"))
  else
    let removals :=
      (if path_exists LTP_SKIP_FILE then [RemoteOp.removeFile LTP_SKIP_FILE]
       else []) ++
      (if path_exists LTP_RESULT_PATH then [RemoteOp.removeFile LTP_RESULT_PATH]
       else []) ++
      (if path_exists LTP_OUTPUT_PATH then [RemoteOp.removeFile LTP_OUTPUT_PATH]
       else [])
    let parameters := invocation_base ltp_tests drive_name
    let writes :=
      if skip_tests.length > 0 then
        [RemoteOp.writeFile (String.intercalate "\n" skip_tests) LTP_SKIP_FILE]
      else []
    let parameters :=
      if skip_tests.length > 0 then
        parameters ++ "-S " ++ LTP_SKIP_FILE ++ " "
      else parameters
    (removals ++ writes ++ [RemoteOp.runProcess parameters], .ok parameters)

/-- True iff pat occurs as a contiguous substring of s. -/
def hasSubstr (s pat : String) : Bool :=
  (findMarker pat.data s.data).isSome

/-- The operating-system families distinguished by _install
(ltp.py lines 128-199). The Fedora case carries whether the node is a
Redhat with release at least 8.0. -/
inductive OsFamily
  | Fedora (redhatGe8 : Bool)
  | Debian
  | Suse
  | CBLMariner
  | OtherPosix
  | NonPosix
deriving DecidableEq, Repr

/-- Errors raised during the package phase of _install: the initial
Posix assertion, or the LisaException of the unrecognized-family branch. -/
inductive InstallError
  | assertionError (msg : String)
  | lisaException (msg : String)
deriving DecidableEq, Repr

/-- The common dependency packages (ltp.py lines 132-141). -/
def common_packages : List String :=
  ["m4", "bison", "flex", "psmisc", "autoconf", "automake"]

/-- The Fedora-specific packages (ltp.py lines 145-147). -/
def fedora_packages : List String :=
  ["libaio-devel", "libattr", "libcap-devel", "libdb"]

/-- The Debian-specific packages (ltp.py lines 156-175). -/
def debian_packages : List String :=
  ["ntp", "libaio-dev", "libattr1", "libcap-dev", "keyutils", "libdb4.8",
   "libberkeleydb-perl", "expect", "dh-autoreconf", "gdb", "libnuma-dev",
   "quota", "genisoimage", "db-util", "unzip", "exfat-utils"]

/-- The Suse-specific packages (ltp.py lines 177-188). -/
def suse_packages : List String :=
  ["ntp", "git-core", "db48-utils", "libaio-devel", "libattr1",
   "libcap-progs", "libdb-4_8", "perl-BerkeleyDB"]

/-- The CBLMariner-specific packages (ltp.py lines 190-197). -/
def mariner_packages : List String :=
  ["kernel-headers", "binutils", "glibc-devel", "zlib-devel"]

/-- The package phase of _install (ltp.py lines 128-199): the Posix
assertion, the unconditional install of the common dependencies, then the
distro branching; the unrecognized branch raises LisaException. Returns
the install_packages calls issued, in order, and the error if one was
raised. The source interpolates the os object into both messages; the
model uses a fixed text. -/
def ltp_install_packages (os : OsFamily) :
    List (List String) × Option InstallError :=
  match os with
  | .NonPosix => ([], some (.assertionError "os is not supported"))
  | .Fedora redhatGe8 =>
    ([common_packages, fedora_packages,
      if redhatGe8 then ["ntp"] else ["db4-utils"]], none)
  | .Debian => ([common_packages, debian_packages], none)
  | .Suse => ([common_packages, suse_packages], none)
  | .CBLMariner => ([common_packages, mariner_packages], none)
  | .OtherPosix =>
    ([common_packages], some (.lisaException "os is not supported"))

/-- The aggregation loop of LtpTestsuite.ltp_lite
(ltpsuite.py lines 74-94): collect the names of FAILED records, in
order, by appending inside the loop over the results. -/
def ltp_lite_failed_tests (results : List LtpResult) : List String :=
  results.foldl
    (fun acc r => if r.status = TestStatus.FAILED then acc ++ [r.name] else acc)
    []

/-- The final assertion of LtpTestsuite.ltp_lite (ltpsuite.py lines
92-94): the run passes iff the failed-test list is empty. -/
def ltp_lite_passes (results : List LtpResult) : Bool :=
  ltp_lite_failed_tests results = []

/-- The message of the final assertion of LtpTestsuite.ltp_lite
(ltpsuite.py line 93), with the failed names carried as a list. -/
def ltp_lite_failure_message (results : List LtpResult) :
    String × List String :=
  ("The following tests failed: ", ltp_lite_failed_tests results)

/-! ## Helper lemmas -/

theorem parse_status_cases (s : String) (st : TestStatus)
    (h : parse_status_to_test_status s = .ok st) :
    st = TestStatus.PASSED ∨ st = TestStatus.FAILED ∨ st = TestStatus.SKIPPED := by
  unfold parse_status_to_test_status at h
  split at h
  · exact Or.inl (Except.ok.inj h).symm
  · split at h
    · exact Or.inr (Or.inl (Except.ok.inj h).symm)
    · split at h
      · exact Or.inr (Or.inr (Except.ok.inj h).symm)
      · cases h

theorem build_results_names (a : String) :
    ∀ ms rs, build_results a ms = .ok rs →
      rs.map (fun r => r.name) = ms.map (fun m => pyStrip m.1) := by
  intro ms
  induction ms with
  | nil =>
    intro rs h
    cases h
    rfl
  | cons m rest ih =>
    intro rs h
    unfold build_results at h
    cases hs : parse_status_to_test_status (pyStrip m.2.1) with
    | error e => rw [hs] at h; cases h
    | ok st =>
      rw [hs] at h
      cases hr : build_results a rest with
      | error e => rw [hr] at h; cases h
      | ok rs0 =>
        rw [hr] at h
        cases h
        simp [ih rs0 hr]

theorem build_results_statuses (a : String) :
    ∀ ms rs, build_results a ms = .ok rs → ∀ r ∈ rs,
      r.status = TestStatus.PASSED ∨ r.status = TestStatus.FAILED ∨
        r.status = TestStatus.SKIPPED := by
  intro ms
  induction ms with
  | nil =>
    intro rs h r hr
    cases h
    cases hr
  | cons m rest ih =>
    intro rs h r hr
    unfold build_results at h
    cases hs : parse_status_to_test_status (pyStrip m.2.1) with
    | error e => rw [hs] at h; cases h
    | ok st =>
      rw [hs] at h
      cases hr0 : build_results a rest with
      | error e => rw [hr0] at h; cases h
      | ok rs0 =>
        rw [hr0] at h
        cases h
        rcases List.mem_cons.mp hr with hhead | htail
        · subst hhead
          exact parse_status_cases _ _ hs
        · exact ih rs0 hr0 r htail

/-! ## Claim theorems -/

/-- C1 counterexample: with testList = [math] and driveName = /dev/sdc the
constructed argument string is exactly the device flag; it does not
contain the test list, so the replacement is not limited to the
logging/output flags. -/
theorem run_test_drive_discards_tests_cex :
    (run_test ["math"] [] (some "/dev/sdc") (fun _ => false)).2 =
      .ok "-z /dev/sdc " ∧
    hasSubstr "-z /dev/sdc " "math" = false := by
  exact ⟨rfl, rfl⟩

/-- C1 (amended): for non-empty testList, when driveName is absent the
argument string is the logging flags followed by the comma-joined test
list (so the list appears exactly once, in order); when driveName is
truthy the whole string built so far — the test selection included, not
only the logging/output flags — is replaced by the device flag, and only
the skip-file suffix can still follow. -/
theorem run_test_argument_construction (tests skip : List String)
    (pe : String → Bool) (h : tests ≠ []) :
    invocation_base tests none =
      "-p -q -l /opt/ltp/ltp-results.log -o /opt/ltp/ltp-output.log -f " ++
        (String.intercalate "," tests ++ " ")
    ∧ (∀ d : String, d ≠ "" → invocation_base tests (some d) = "-z " ++ d ++ " ")
    ∧ (run_test tests skip none pe).2 =
        .ok (if skip = [] then invocation_base tests none
             else invocation_base tests none ++ "-S " ++ LTP_SKIP_FILE ++ " ")
    ∧ ∀ d : String, d ≠ "" → (run_test tests skip (some d) pe).2 =
        .ok (if skip = [] then "-z " ++ d ++ " "
             else ("-z " ++ d ++ " ") ++ "-S " ++ LTP_SKIP_FILE ++ " ") := by
  have hz : ∀ d : String, d ≠ "" →
      invocation_base tests (some d) = "-z " ++ d ++ " " := by
    intro d hd
    simp only [invocation_base]
    rw [if_neg hd]
  refine ⟨rfl, hz, ?_, ?_⟩
  · unfold run_test
    rw [if_neg h]
    cases skip with
    | nil => rfl
    | cons a l =>
      show Except.ok (if (a :: l).length > 0
          then invocation_base tests none ++ "-S " ++ LTP_SKIP_FILE ++ " "
          else invocation_base tests none) = _
      rw [if_pos (by simp : (a :: l).length > 0),
          if_neg (by simp : ¬(a :: l = []))]
  · intro d hd
    unfold run_test
    rw [if_neg h]
    cases skip with
    | nil =>
      show Except.ok (invocation_base tests (some d)) = _
      rw [hz d hd, if_pos rfl]
    | cons a l =>
      show Except.ok (if (a :: l).length > 0
          then invocation_base tests (some d) ++ "-S " ++ LTP_SKIP_FILE ++ " "
          else invocation_base tests (some d)) = _
      rw [if_pos (by simp : (a :: l).length > 0), hz d hd,
          if_neg (by simp : ¬(a :: l = []))]

/-- C1 witness: the drive-mode conclusion instantiated at testList
[math, fsx], skipList [a] and drive /dev/sdc. -/
theorem run_test_argument_construction_witness :
    (run_test ["math", "fsx"] ["a"] (some "/dev/sdc") (fun _ => false)).2 =
      .ok (if (["a"] : List String) = [] then "-z " ++ "/dev/sdc" ++ " "
           else ("-z " ++ "/dev/sdc" ++ " ") ++ "-S " ++ LTP_SKIP_FILE ++ " ") :=
  (run_test_argument_construction ["math", "fsx"] ["a"] (fun _ => false)
    (by decide)).2.2.2 "/dev/sdc" (by decide)

/-- C5: run_test with an empty test list returns the InvalidArgument
error with an empty remote-call trace: no removal, write or process
execution happens. -/
theorem run_test_empty_tests_rejected (skip : List String)
    (d : Option String) (pe : String → Bool) :
    run_test [] skip d pe =
      ([], .error (RunError.invalidArgument "ltp_tests cannot be empty")) := by
  rfl

/-- C5 witness: the theorem instantiated at a concrete skip list, drive
name and filesystem probe. -/
theorem run_test_empty_tests_rejected_witness :
    run_test [] ["x"] (some "/dev/sdc") (fun _ => true) =
      ([], .error (RunError.invalidArgument "ltp_tests cannot be empty")) :=
  run_test_empty_tests_rejected ["x"] (some "/dev/sdc") (fun _ => true)

/-- C7: parsing stores the stripped digit string of the log line in
exit_value, a PyVal.str, although the dataclass default (and annotation)
for the field is the int 0: the parsed exit value is not an integer. -/
theorem parse_exit_value_stored_as_string :
    parse_results "Machine Architecture: i686\nmm01  PASS  7\n" =
      .ok [{ version := "20190930", architecture := "i686", name := "mm01",
             status := TestStatus.PASSED, exit_value := PyVal.str "7" }]
    ∧ PyVal.isInt (PyVal.str "7") = false
    ∧ ({} : LtpResult).exit_value = PyVal.int 0 := by
  exact ⟨rfl, rfl, rfl⟩

/-- C9 counterexample: on an unrecognized Posix family the error is
raised, but only after the common dependency packages were installed —
a package installation does take effect before the error. -/
theorem install_partial_before_error_cex :
    (ltp_install_packages OsFamily.OtherPosix).2 =
      some (InstallError.lisaException "os is not supported")
    ∧ (ltp_install_packages OsFamily.OtherPosix).1 = [common_packages]
    ∧ common_packages ≠ [] := by
  exact ⟨rfl, rfl, by decide⟩

/-- C9 (amended): an operating-system family outside the recognized set
is a fatal error during install, raised after the common dependency
packages are installed but before any distro-specific package set; the
recognized families are exactly Fedora-like, Debian-like, Suse-like and
CBLMariner-like. -/
theorem install_unrecognized_family :
    ltp_install_packages OsFamily.OtherPosix =
      ([common_packages], some (InstallError.lisaException "os is not supported"))
    ∧ ∀ os : OsFamily, (ltp_install_packages os).2 = none ↔
        (os = OsFamily.Debian ∨ os = OsFamily.Suse ∨ os = OsFamily.CBLMariner ∨
         ∃ b, os = OsFamily.Fedora b) := by
  refine ⟨rfl, ?_⟩
  intro os
  cases os <;> simp [ltp_install_packages]

/-- C9 witness: the recognized-family equivalence instantiated at the
Debian family. -/
theorem install_unrecognized_family_witness :
    (ltp_install_packages OsFamily.Debian).2 = none ↔
      (OsFamily.Debian = OsFamily.Debian ∨ OsFamily.Debian = OsFamily.Suse ∨
       OsFamily.Debian = OsFamily.CBLMariner ∨
       ∃ b, OsFamily.Debian = OsFamily.Fedora b) :=
  install_unrecognized_family.2 OsFamily.Debian

/-- C2: parsing the three-line sample log yields exactly the three
records, in line order, with the shared x86_64 architecture; and in
general the records of any successful parse carry the names of the
matching lines in the order those lines appear in the log text. -/
theorem parse_results_roundtrip :
    parse_results
        "Machine Architecture: x86_64\nabs01  PASS  0\nabs02  FAIL  1\nabs03  CONF  0\n" =
      .ok [{ version := "20190930", architecture := "x86_64", name := "abs01",
             status := TestStatus.PASSED, exit_value := PyVal.str "0" },
           { version := "20190930", architecture := "x86_64", name := "abs02",
             status := TestStatus.FAILED, exit_value := PyVal.str "1" },
           { version := "20190930", architecture := "x86_64", name := "abs03",
             status := TestStatus.SKIPPED, exit_value := PyVal.str "0" }]
    ∧ ∀ text res, parse_results text = .ok res →
        res.map (fun r => r.name) =
          ((toLines text).filterMap matchTestcaseLine).map (fun m => pyStrip m.1) := by
  constructor
  · rfl
  · intro text res hp
    have hp2 : (match (find_patterns_in_lines text).1 with
        | [] => Except.error LtpError.indexError
        | arch0 :: _ =>
          build_results (pyStrip arch0) (find_patterns_in_lines text).2) =
        Except.ok res := hp
    cases harch : (find_patterns_in_lines text).1 with
    | nil => rw [harch] at hp2; cases hp2
    | cons a rest =>
      rw [harch] at hp2
      exact build_results_names (pyStrip a) (find_patterns_in_lines text).2 res hp2

/-- C2 witness: the ordering conclusion instantiated at the sample log
and its parsed records. -/
theorem parse_results_roundtrip_witness :
    ([{ version := "20190930", architecture := "x86_64", name := "abs01",
        status := TestStatus.PASSED, exit_value := PyVal.str "0" },
      { version := "20190930", architecture := "x86_64", name := "abs02",
        status := TestStatus.FAILED, exit_value := PyVal.str "1" },
      { version := "20190930", architecture := "x86_64", name := "abs03",
        status := TestStatus.SKIPPED,
        exit_value := PyVal.str "0" }] : List LtpResult).map (fun r => r.name) =
      ((toLines
          "Machine Architecture: x86_64\nabs01  PASS  0\nabs02  FAIL  1\nabs03  CONF  0\n").filterMap
        matchTestcaseLine).map (fun m => pyStrip m.1) :=
  parse_results_roundtrip.2
    "Machine Architecture: x86_64\nabs01  PASS  0\nabs02  FAIL  1\nabs03  CONF  0\n"
    _ (by rfl)

/-- C3 counterexample: a log whose only body line has the status code
WARN parses successfully to an empty record list: no error of any kind
is raised, contradicting the claimed ParseError. -/
theorem warn_status_no_parse_error_cex :
    parse_results "Machine Architecture: x86_64\nabs04  WARN  0\n" = .ok [] := by
  rfl

/-- C3 (amended): a result line with a status code outside PASS, CONF,
FAIL is not matched by the testcase pattern at all, so parsing succeeds
and silently emits no record for it; the status-mapping helper does
raise a LisaException naming the offending code for any such value, but
the parser never reaches it. -/
theorem unknown_status_lines_skipped :
    (∀ line m, matchTestcaseLine line = some m → isStatusCode m.2.1 = true)
    ∧ parse_results "Machine Architecture: x86_64\nabs04  WARN  0\n" = .ok []
    ∧ parse_status_to_test_status "WARN" =
        .error (.lisaException "Unknown status: WARN") := by
  refine ⟨?_, rfl, rfl⟩
  intro line m hm
  unfold matchTestcaseLine at hm
  split at hm
  · split at hm
    · cases hm
      rename_i hcond
      simp only [Bool.and_eq_true] at hcond
      exact hcond.1.1
    · cases hm
  · cases hm

/-- C3 witness: the pattern-restriction conclusion instantiated at a
concrete PASS line. -/
theorem unknown_status_lines_skipped_witness :
    isStatusCode (("tc09", "PASS", "0") : String × String × String).2.1 = true :=
  unknown_status_lines_skipped.1 "tc09  PASS  0" ("tc09", "PASS", "0") (by rfl)

/-- C8 counterexample: a log without a Machine Architecture line makes
parsing fail with the bare IndexError of matched[0][0], which is not a
LisaException — not the ParseError class the claim names. -/
theorem missing_arch_not_lisa_exception_cex :
    parse_results "tc01  PASS  0\n" = .error LtpError.indexError
    ∧ LtpError.isLisaException LtpError.indexError = false := by
  exact ⟨rfl, rfl⟩

/-- C8 (amended): a log text with no line matching the architecture
pattern makes parsing fail — no records are returned — but with an
uncaught IndexError from indexing the empty match list, not with a
LisaException-based ParseError. -/
theorem missing_arch_index_error (text : String)
    (h : (toLines text).filterMap matchArchLine = []) :
    parse_results text = .error LtpError.indexError := by
  have h2 : (find_patterns_in_lines text).1 = [] := h
  show (match (find_patterns_in_lines text).1 with
    | [] => Except.error LtpError.indexError
    | arch0 :: _ =>
      build_results (pyStrip arch0) (find_patterns_in_lines text).2) =
    Except.error LtpError.indexError
  rw [h2]

/-- C8 witness: the theorem instantiated at a concrete log that has no
architecture line. -/
theorem missing_arch_index_error_witness :
    parse_results "open01  FAIL  2\n" = .error LtpError.indexError :=
  missing_arch_index_error "open01  FAIL  2\n" (by rfl)

/-- C10: the LtpResult status default is QUEUED, yet every record of a
successful parse has one of the three mapped statuses and in particular
is never QUEUED. -/
theorem parse_never_queued :
    ({} : LtpResult).status = TestStatus.QUEUED
    ∧ ∀ text res, parse_results text = .ok res → ∀ r ∈ res,
        (r.status = TestStatus.PASSED ∨ r.status = TestStatus.FAILED ∨
          r.status = TestStatus.SKIPPED) ∧ r.status ≠ TestStatus.QUEUED := by
  constructor
  · rfl
  · intro text res hp r hr
    have hp2 : (match (find_patterns_in_lines text).1 with
        | [] => Except.error LtpError.indexError
        | arch0 :: _ =>
          build_results (pyStrip arch0) (find_patterns_in_lines text).2) =
        Except.ok res := hp
    cases harch : (find_patterns_in_lines text).1 with
    | nil => rw [harch] at hp2; cases hp2
    | cons a rest =>
      rw [harch] at hp2
      have h3 := build_results_statuses (pyStrip a)
        (find_patterns_in_lines text).2 res hp2 r hr
      refine ⟨h3, ?_⟩
      rcases h3 with h | h | h <;> simp [h]

/-- C10 witness: the theorem instantiated at a one-line CONF log and its
single SKIPPED record. -/
theorem parse_never_queued_witness :
    (({ version := "20190930", architecture := "arm64", name := "cv01",
        status := TestStatus.SKIPPED,
        exit_value := PyVal.str "2" } : LtpResult).status = TestStatus.PASSED ∨
      ({ version := "20190930", architecture := "arm64", name := "cv01",
         status := TestStatus.SKIPPED,
         exit_value := PyVal.str "2" } : LtpResult).status = TestStatus.FAILED ∨
      ({ version := "20190930", architecture := "arm64", name := "cv01",
         status := TestStatus.SKIPPED,
         exit_value := PyVal.str "2" } : LtpResult).status = TestStatus.SKIPPED)
    ∧ ({ version := "20190930", architecture := "arm64", name := "cv01",
         status := TestStatus.SKIPPED,
         exit_value := PyVal.str "2" } : LtpResult).status ≠ TestStatus.QUEUED :=
  parse_never_queued.2 "Machine Architecture: arm64\ncv01  CONF  2\n"
    [{ version := "20190930", architecture := "arm64", name := "cv01",
       status := TestStatus.SKIPPED, exit_value := PyVal.str "2" }]
    (by rfl) _ (by simp)

theorem removals_no_write (pe : String → Bool) :
    (((if pe LTP_SKIP_FILE then [RemoteOp.removeFile LTP_SKIP_FILE] else []) ++
      (if pe LTP_RESULT_PATH then [RemoteOp.removeFile LTP_RESULT_PATH] else []) ++
      (if pe LTP_OUTPUT_PATH then [RemoteOp.removeFile LTP_OUTPUT_PATH]
       else [])).filter RemoteOp.isWrite) = [] := by
  cases h1 : pe LTP_SKIP_FILE <;> cases h2 : pe LTP_RESULT_PATH <;>
    cases h3 : pe LTP_OUTPUT_PATH <;> simp [RemoteOp.isWrite]

/-- C4: for a non-empty test list, a non-empty skip list makes run_test
issue exactly one file write, of the skip names joined by newlines with
no trailing separator, to the skip-file path, and append the skip-file
flag to the arguments; an empty skip list issues no write and leaves the
arguments without the skip suffix. -/
theorem run_test_skipfile (tests skip : List String) (d : Option String)
    (pe : String → Bool) (h : tests ≠ []) :
    (run_test tests skip d pe).1.filter RemoteOp.isWrite =
      (if skip = [] then []
       else [RemoteOp.writeFile (String.intercalate "\n" skip) LTP_SKIP_FILE])
    ∧ (run_test tests skip d pe).2 =
      .ok (if skip = [] then invocation_base tests d
           else invocation_base tests d ++ "-S " ++ LTP_SKIP_FILE ++ " ") := by
  simp only [run_test, if_neg h]
  cases skip with
  | nil =>
    constructor
    · simp [List.filter_append, removals_no_write, RemoteOp.isWrite]
    · rfl
  | cons a l =>
    constructor
    · simp [List.filter_append, apply_ite (List.filter RemoteOp.isWrite),
        RemoteOp.isWrite]
    · show Except.ok (if (a :: l).length > 0
          then invocation_base tests d ++ "-S " ++ LTP_SKIP_FILE ++ " "
          else invocation_base tests d) = _
      rw [if_pos (by simp : (a :: l).length > 0),
          if_neg (by simp : ¬(a :: l = []))]

/-- C4 witness: the theorem instantiated at test list [math], skip list
[a, b], drive /dev/sdc and an all-true filesystem probe. -/
theorem run_test_skipfile_witness :
    (run_test ["math"] ["a", "b"] (some "/dev/sdc")
        (fun _ => true)).1.filter RemoteOp.isWrite =
      (if (["a", "b"] : List String) = [] then []
       else [RemoteOp.writeFile (String.intercalate "\n" ["a", "b"])
               LTP_SKIP_FILE])
    ∧ (run_test ["math"] ["a", "b"] (some "/dev/sdc") (fun _ => true)).2 =
      .ok (if (["a", "b"] : List String) = []
           then invocation_base ["math"] (some "/dev/sdc")
           else invocation_base ["math"] (some "/dev/sdc") ++ "-S " ++
             LTP_SKIP_FILE ++ " ") :=
  run_test_skipfile ["math"] ["a", "b"] (some "/dev/sdc") (fun _ => true)
    (by decide)

theorem ltp_lite_foldl_filter (l : List LtpResult) :
    ∀ acc : List String,
      l.foldl (fun acc r =>
          if r.status = TestStatus.FAILED then acc ++ [r.name] else acc) acc
        = acc ++ (l.filter (fun r => r.status = TestStatus.FAILED)).map
            (fun r => r.name) := by
  induction l with
  | nil => intro acc; simp
  | cons r rest ih =>
    intro acc
    by_cases hr : r.status = TestStatus.FAILED
    · simp [List.foldl_cons, List.filter_cons, hr, ih, List.append_assoc]
    · simp [List.foldl_cons, List.filter_cons, hr, ih]

/-- C6: the failed-test list collected by ltp_lite is exactly the names
of the FAILED records, in their original order; the failure message
carries that list; the run fails (the assertion message is reached) iff
some record is FAILED; and each name occurs in the list exactly as many
times as the input holds FAILED records with that name. -/
theorem ltp_lite_aggregation (results : List LtpResult) :
    ltp_lite_failed_tests results =
      (results.filter (fun r => r.status = TestStatus.FAILED)).map
        (fun r => r.name)
    ∧ (ltp_lite_failure_message results).2 = ltp_lite_failed_tests results
    ∧ (ltp_lite_passes results = false ↔
        ∃ r ∈ results, r.status = TestStatus.FAILED)
    ∧ ∀ n : String, (ltp_lite_failed_tests results).count n =
        (results.filter
          (fun r => r.status = TestStatus.FAILED ∧ r.name = n)).length := by
  have hmain : ltp_lite_failed_tests results =
      (results.filter (fun r => r.status = TestStatus.FAILED)).map
        (fun r => r.name) := by
    unfold ltp_lite_failed_tests
    exact ltp_lite_foldl_filter results []
  have hcount : ∀ (l : List LtpResult) (n : String),
      ((l.filter (fun r => r.status = TestStatus.FAILED)).map
        (fun r => r.name)).count n =
        (l.filter
          (fun r => r.status = TestStatus.FAILED ∧ r.name = n)).length := by
    intro l n
    induction l with
    | nil => simp
    | cons r rest ih =>
      by_cases h1 : r.status = TestStatus.FAILED
      · by_cases h2 : r.name = n
        · simp [h1, h2, List.filter_cons, List.count_cons, ih]
        · simp [h1, h2, List.filter_cons, List.count_cons, ih]
      · simp [h1, List.filter_cons, ih]
  refine ⟨hmain, rfl, ?_, ?_⟩
  · unfold ltp_lite_passes
    rw [hmain]
    simp [List.filter_eq_nil_iff]
  · intro n
    rw [hmain]
    exact hcount results n

/-- C6 witness: the pass-fail equivalence instantiated at a one-record
result set whose record is FAILED. -/
theorem ltp_lite_aggregation_witness :
    ltp_lite_passes
        [{ version := "20190930", architecture := "x86_64",
           name := "abs02", status := TestStatus.FAILED,
           exit_value := PyVal.str "1" }] = false ↔
      ∃ r ∈ [({ version := "20190930", architecture := "x86_64",
                name := "abs02", status := TestStatus.FAILED,
                exit_value := PyVal.str "1" } : LtpResult)],
        r.status = TestStatus.FAILED :=
  (ltp_lite_aggregation
    [{ version := "20190930", architecture := "x86_64", name := "abs02",
       status := TestStatus.FAILED, exit_value := PyVal.str "1" }]).2.2.1

end Lisa
